import Mathlib

/-!
Shallow embedding of the tenorite-ui domain core (src/component.rs,
src/library.rs, src/libraries/gates.rs).

Conventions of the embedding:
* `serde_json::Value` becomes the inductive `Json` (numbers carried as `Int`:
  every value the claims exercise is integral; a non-integral number would
  simply fail the `u32` decode like any other non-integer).
* Rust `&mut self` methods become state-passing functions that return the new
  state alongside the result, mirroring source order, so that a method which
  errors after mutating would be visibly non-atomic.
* A `SmallBitVec` is a `List Bool`; its `set`/`Index` operations panic when
  out of bounds, which the embedding surfaces through the `Outcome` wrapper
  (`Outcome.panic` = process abort, `Outcome.ok` = normal return).
* `BTreeMap` (schemas, the registry) is embedded extensionally as a lookup
  function `String → Option _`; `insert` is pointwise function update, which
  matches `BTreeMap` lookup semantics exactly.
* `serde` string errors are abstracted: `PropertyError::from_serde` keeps the
  `InvalidValue` reason with a fixed explanation token, since no claim
  inspects the explanation text.
-/

namespace Tenorite

/-- Result of running a Rust code path: either a normal return value or a
process abort (panic). -/
inductive Outcome (α : Type) where
  | ok (val : α)
  | panic
  deriving Repr

/-- `serde_json::Value` with integral numbers. -/
inductive Json where
  | null
  | bool (b : Bool)
  | num (n : Int)
  | str (s : String)
  | arr (elems : List Json)
  | obj (fields : List (String × Json))

/-- `FieldType` from src/component.rs (the ValueDomain of the spec). -/
inductive FieldType where
  | Text (min_len max_len : Nat)
  | Integer (min max : Nat)
  | Enum (options : List String)
  deriving DecidableEq

/-- `FieldType::for_enum`: builds an Enum domain from the serialized string
tokens of the variants. In Rust a variant that does not serialize to a string
aborts (the §4.1 programmer-contract violation); the unit-variant enums used
in this repository (`YesNo`, `Orientation`) always serialize to strings, so
the embedding receives the tokens directly. -/
def FieldType.for_enum (tokens : List String) : FieldType :=
  FieldType.Enum tokens

/-- `FieldSchema` from src/component.rs. -/
structure FieldSchema where
  read_only : Bool
  type_ : FieldType
  name : String
  description : Option String
  deriving DecidableEq

/-- `PropertyErrorReason` from src/component.rs. -/
inductive PropertyErrorReason where
  | UnknownProperty
  | ReadOnlyProperty
  | InvalidValue (explanation : String)
  deriving DecidableEq

/-- `PropertyError` from src/component.rs. -/
structure PropertyError where
  name : String
  reason : PropertyErrorReason
  deriving DecidableEq

/-- `PropertyError::from_serde` (explanation text abstracted, reason kept). -/
def PropertyError.from_serde (name : String) : PropertyError :=
  { name := name, reason := PropertyErrorReason.InvalidValue "deserialization error" }

/-- `PropertyError::unknown`. -/
def PropertyError.unknown (name : String) : PropertyError :=
  { name := name, reason := PropertyErrorReason.UnknownProperty }

/-- `Pin` from src/component.rs. -/
structure Pin where
  x : Int
  y : Int
  name : String
  bits : Nat

/-- `Shape` from src/component.rs. -/
structure Shape where
  width : Int
  height : Int
  pins : List Pin
  image_name : String

/-- `Orientation` from src/component.rs. -/
inductive Orientation where
  | North
  | East
  | South
  | West
  deriving DecidableEq

/-- serde serialization of `Orientation` (externally tagged unit variants
serialize as plain strings). -/
def Orientation.toJson : Orientation → Json
  | Orientation.North => Json.str "North"
  | Orientation.East => Json.str "East"
  | Orientation.South => Json.str "South"
  | Orientation.West => Json.str "West"

/-- serde deserialization of `Orientation` from a JSON value. -/
def Orientation.fromJson : Json → Option Orientation
  | Json.str "North" => some Orientation.North
  | Json.str "East" => some Orientation.East
  | Json.str "South" => some Orientation.South
  | Json.str "West" => some Orientation.West
  | _ => none

/-- `Orientation::map_point` from src/component.rs. -/
def Orientation.map_point (o : Orientation) (x y w h : Int) : Int × Int :=
  match o with
  | Orientation.North => (x, y)
  | Orientation.East => (w - y, x)
  | Orientation.South => (w - x, h - y)
  | Orientation.West => (y, h - x)

/-- `Orientation::map_shape` from src/component.rs: swap extents for a quarter
turn, then remap every pin through `map_point` using the (possibly swapped)
extents. -/
def Orientation.map_shape (o : Orientation) (shape : Shape) : Shape :=
  let shape1 : Shape :=
    match o with
    | Orientation.North | Orientation.South => shape
    | Orientation.East | Orientation.West =>
        { shape with width := shape.height, height := shape.width }
  { shape1 with
      pins := shape1.pins.map (fun pin =>
        let p := o.map_point pin.x pin.y shape1.width shape1.height
        { pin with x := p.1, y := p.2 }) }

/-- `impl ReflectType for Orientation` in src/component.rs. -/
def Orientation.field_type : FieldType :=
  FieldType.for_enum ["North", "East", "South", "West"]

/-- The `Schema` alias (`BTreeMap<Cow<str>, FieldSchema>`), embedded as its
lookup function. -/
def Schema := String → Option FieldSchema

/-- The `Component` trait of src/component.rs as a typeclass over the concrete
state type (the repository's `Box<AnyComponent>` erasure collapsed to a type
parameter). Stateful `set_property` returns the successor state in every
normal outcome. -/
class Component (σ : Type) where
  schema : σ → Schema
  set_property : σ → String → Json → Outcome (σ × Except PropertyError Unit)
  get_property : σ → String → Outcome (Option Json)
  get_shape : σ → Shape

/-- `ComponentMetadata` from src/library.rs. -/
structure ComponentMetadata where
  id : String
  name : String
  category : String
  description : String
  deriving DecidableEq

/-- `ComponentInfo` from src/component.rs (the spec's Placement). -/
structure ComponentInfo (σ : Type) where
  component : σ
  orientation : Orientation
  x : Int
  y : Int
  metadata : ComponentMetadata

/-- `ComponentInfo::new`: default position (0,0), default facing North. -/
def ComponentInfo.new {σ : Type} (component : σ) (metadata : ComponentMetadata) :
    ComponentInfo σ :=
  { component := component, orientation := Orientation.North, x := 0, y := 0,
    metadata := metadata }

/-- `ComponentInfo::schema`: inner schema with the synthetic `"orientation"`
entry inserted (BTreeMap insert = pointwise update of the lookup function). -/
def ComponentInfo.schema {σ : Type} [Component σ] (info : ComponentInfo σ) : Schema :=
  fun key =>
    if key = "orientation" then
      some { read_only := false, type_ := Orientation.field_type,
             name := "Orientation", description := none }
    else Component.schema info.component key

/-- `ComponentInfo::set_property`: intercept `"orientation"`, delegate the
rest to the wrapped component. -/
def ComponentInfo.set_property {σ : Type} [Component σ] (info : ComponentInfo σ)
    (name : String) (value : Json) :
    Outcome (ComponentInfo σ × Except PropertyError Unit) :=
  if name = "orientation" then
    match Orientation.fromJson value with
    | none => Outcome.ok (info, Except.error (PropertyError.from_serde name))
    | some o => Outcome.ok ({ info with orientation := o }, Except.ok ())
  else
    match Component.set_property info.component name value with
    | Outcome.panic => Outcome.panic
    | Outcome.ok (c, r) => Outcome.ok ({ info with component := c }, r)

/-- `ComponentInfo::get_property`. -/
def ComponentInfo.get_property {σ : Type} [Component σ] (info : ComponentInfo σ)
    (name : String) : Outcome (Option Json) :=
  if name = "orientation" then Outcome.ok (some info.orientation.toJson)
  else Component.get_property info.component name

/-- `ComponentInfo::get_shape`: oriented view of the wrapped raw shape. -/
def ComponentInfo.get_shape {σ : Type} [Component σ] (info : ComponentInfo σ) : Shape :=
  info.orientation.map_shape (Component.get_shape info.component)

/-- `ComponentEntry` from src/library.rs. -/
structure ComponentEntry (σ : Type) where
  metadata : ComponentMetadata
  factory : Unit → σ

/-- `Library` from src/library.rs: the id-keyed `BTreeMap` embedded as its
lookup function. -/
structure Library (σ : Type) where
  components : String → Option (ComponentEntry σ)

/-- `Library::new` (empty registry). -/
def Library.new {σ : Type} : Library σ :=
  { components := fun _ => none }

/-- `MissingComponentError` from src/library.rs. -/
structure MissingComponentError where
  id : String
  deriving DecidableEq

/-- `Library::create`: look up the id; on a hit run the entry's factory and
wrap the fresh component. -/
def Library.create {σ : Type} (lib : Library σ) (id : String) :
    Except MissingComponentError (ComponentInfo σ) :=
  match lib.components id with
  | none => Except.error { id := id }
  | some entry => Except.ok (ComponentInfo.new (entry.factory ()) entry.metadata)

/-- `Library::extend`: `BTreeMap::extend`, i.e. insert every entry of `other`,
incoming entries overwriting on key collision. -/
def Library.extend {σ : Type} (lib : Library σ) (other : Library σ) : Library σ :=
  { components := fun id =>
      match other.components id with
      | some entry => some entry
      | none => lib.components id }

/-- `Library::add`: insert one entry keyed by `metadata.id`. -/
def Library.add {σ : Type} (lib : Library σ) (metadata : ComponentMetadata)
    (f : Unit → σ) : Library σ :=
  { components := fun id =>
      if id = metadata.id then some { metadata := metadata, factory := f }
      else lib.components id }

/-! ### src/libraries/gates.rs -/

/-- `NaryGateType`. -/
inductive NaryGateType where
  | And
  | Or
  | Xor
  | Parity
  deriving DecidableEq

/-- `NaryGateType::image_name`. -/
def NaryGateType.image_name : NaryGateType → Bool → String
  | NaryGateType.And, false => "and_gate"
  | NaryGateType.Or, false => "or_gate"
  | NaryGateType.Xor, false => "xor_gate"
  | NaryGateType.Parity, false => "odd_parity"
  | NaryGateType.And, true => "nand_gate"
  | NaryGateType.Or, true => "nor_gate"
  | NaryGateType.Xor, true => "xnor_gate"
  | NaryGateType.Parity, true => "even_parity"

/-- `YesNo` from gates.rs. -/
inductive YesNo where
  | Yes
  | No
  deriving DecidableEq

/-- `impl From<YesNo> for bool`. -/
def YesNo.toBool : YesNo → Bool
  | YesNo.Yes => true
  | YesNo.No => false

/-- `impl From<bool> for YesNo`. -/
def YesNo.ofBool : Bool → YesNo
  | true => YesNo.Yes
  | false => YesNo.No

/-- serde serialization of `YesNo` (unit variants serialize to their name). -/
def YesNo.toJson : YesNo → Json
  | YesNo.Yes => Json.str "Yes"
  | YesNo.No => Json.str "No"

/-- serde deserialization of `YesNo` from a JSON value. -/
def YesNo.fromJson : Json → Option YesNo
  | Json.str "Yes" => some YesNo.Yes
  | Json.str "No" => some YesNo.No
  | _ => none

/-- `serde_json::from_value::<u32>`: succeeds exactly on integral JSON numbers
within the `u32` range. -/
def decodeU32 : Json → Option Nat
  | Json.num n => if 0 ≤ n ∧ n < 4294967296 then some n.toNat else none
  | _ => none

/-- `SmallBitVec::resize(len, fill)`: truncate, or extend with `fill`. -/
def resizeBits (v : List Bool) (len : Nat) (fill : Bool) : List Bool :=
  if len ≤ v.length then v.take len
  else v ++ List.replicate (len - v.length) fill

/-- `str::starts_with` on embedded strings (structural on the char list, so it
reduces in the kernel). -/
def strStartsWith (s p : String) : Bool :=
  p.data.isPrefixOf s.data

/-- The loop `for i in 0..num_inputs { if format!("invert_input_{}", i) == name
{ ... } }` shared by `set_property` and `get_property`: the first index whose
formatted key equals `name`, if any. -/
def findInvertIndex (num_inputs : Nat) (name : String) : Option Nat :=
  (List.range num_inputs).find? (fun i => "invert_input_" ++ toString i = name)

/-- `NaryGate` state. `num_inputs`/`num_bits` are `u32` (every write comes
from `decodeU32`); `invert_inputs` is the `SmallBitVec`. -/
structure NaryGate where
  type_ : NaryGateType
  invert_output : Bool
  num_inputs : Nat
  num_bits : Nat
  invert_inputs : List Bool
  deriving DecidableEq

/-- `NaryGate::new`: 2 inputs, 1 bit, `sbvec![false; 2]`. -/
def NaryGate.new (t : NaryGateType) : NaryGate :=
  { type_ := t, invert_output := false, num_inputs := 2, num_bits := 1,
    invert_inputs := [false, false] }

/-- The `FieldSchema` used for every `YesNo` property in `NaryGate::schema`. -/
def yesNoField (display : String) : FieldSchema :=
  { read_only := false, type_ := FieldType.for_enum ["No", "Yes"],
    name := display, description := none }

/-- `NaryGate::schema` (lookup function of the built `BTreeMap`): the three
fixed keys plus one `invert_input_i` entry per `i < num_inputs`. -/
def NaryGate.schema (g : NaryGate) : Schema := fun key =>
  if key = "invert_output" then some (yesNoField "Invert output")
  else if key = "num_inputs" then
    some { read_only := false, type_ := FieldType.Integer 2 32,
           name := "Number of inputs", description := none }
  else if key = "num_bits" then
    some { read_only := false, type_ := FieldType.Integer 1 256,
           name := "Data bits", description := none }
  else
    match findInvertIndex g.num_inputs key with
    | some i => some (yesNoField ("Invert input " ++ toString i))
    | none => none

/-- `NaryGate::set_property`, branch for branch from gates.rs lines 114-148.
Note the `"num_bits"` arm writes `num_inputs`, exactly as the source does on
line 129. `SmallBitVec::set` out of bounds is a panic. -/
def NaryGate.set_property (g : NaryGate) (name : String) (value : Json) :
    Outcome (NaryGate × Except PropertyError Unit) :=
  if name = "invert_output" then
    match YesNo.fromJson value with
    | none => Outcome.ok (g, Except.error (PropertyError.from_serde name))
    | some v => Outcome.ok ({ g with invert_output := v.toBool }, Except.ok ())
  else if name = "num_inputs" then
    match decodeU32 value with
    | none => Outcome.ok (g, Except.error (PropertyError.from_serde name))
    | some n =>
        Outcome.ok ({ g with num_inputs := n,
                             invert_inputs := resizeBits g.invert_inputs n false },
                    Except.ok ())
  else if name = "num_bits" then
    match decodeU32 value with
    | none => Outcome.ok (g, Except.error (PropertyError.from_serde name))
    | some n => Outcome.ok ({ g with num_inputs := n }, Except.ok ())
  else if strStartsWith name "invert_input_" then
    match YesNo.fromJson value with
    | none => Outcome.ok (g, Except.error (PropertyError.from_serde name))
    | some v =>
        match findInvertIndex g.num_inputs name with
        | some i =>
            if i < g.invert_inputs.length then
              Outcome.ok ({ g with invert_inputs := g.invert_inputs.set i v.toBool },
                          Except.ok ())
            else Outcome.panic
        | none => Outcome.ok (g, Except.error (PropertyError.unknown name))
  else Outcome.ok (g, Except.error (PropertyError.unknown name))

/-- `NaryGate::get_property` from gates.rs lines 149-172. Indexing the
`SmallBitVec` out of bounds is a panic. -/
def NaryGate.get_property (g : NaryGate) (name : String) : Outcome (Option Json) :=
  if name = "invert_output" then
    Outcome.ok (some (YesNo.ofBool g.invert_output).toJson)
  else if name = "num_inputs" then
    Outcome.ok (some (Json.num g.num_inputs))
  else if name = "num_bits" then
    Outcome.ok (some (Json.num g.num_bits))
  else if strStartsWith name "invert_input_" then
    match findInvertIndex g.num_inputs name with
    | some i =>
        if h : i < g.invert_inputs.length then
          Outcome.ok (some (YesNo.ofBool (g.invert_inputs.get ⟨i, h⟩)).toJson)
        else Outcome.panic
    | none => Outcome.ok none
  else Outcome.ok none

/-- `NaryGate::get_shape`. -/
def NaryGate.get_shape (g : NaryGate) : Shape :=
  { width := 3, height := 3, pins := [],
    image_name := g.type_.image_name g.invert_output }

/-- `impl Component for NaryGate`. -/
instance : Component NaryGate where
  schema := NaryGate.schema
  set_property := NaryGate.set_property
  get_property := NaryGate.get_property
  get_shape := NaryGate.get_shape

/-- The metadata registered for the OR gate in `gates::library`. -/
def orGateMetadata : ComponentMetadata :=
  { id := "or_gate", name := "OR Gate", category := "Gates",
    description := "Logical OR gate" }

/-- `gates::library()`: one entry, `"or_gate"`, producing `NaryGate::new(Or)`. -/
def gatesLibrary : Library NaryGate :=
  Library.add Library.new orGateMetadata (fun _ => NaryGate.new NaryGateType.Or)


/-! ### Concrete states used by the claim theorems -/

/-- A fresh OR gate, as produced by the `"or_gate"` factory. -/
def orGate : NaryGate := NaryGate.new NaryGateType.Or

/-- The placement `create("or_gate")` returns. -/
def orPlacement : ComponentInfo NaryGate := ComponentInfo.new orGate orGateMetadata

/-- The state the `"num_bits"` arm of `NaryGate::set_property` actually
produces from a fresh OR gate and the value 5: gates.rs line 129 writes the
decoded value into `num_inputs`, leaves `num_bits` at 1 and does not resize
`invert_inputs` (still 2 bits long). -/
def orGateAfterBits : NaryGate :=
  { type_ := NaryGateType.Or, invert_output := false, num_inputs := 5,
    num_bits := 1, invert_inputs := [false, false] }

/-- The state `set_property("num_inputs", 100)` actually produces from a
fresh OR gate: accepted without any check against the declared
`Integer{min:2,max:32}` domain. -/
def orGateWide : NaryGate :=
  { type_ := NaryGateType.Or, invert_output := false, num_inputs := 100,
    num_bits := 1, invert_inputs := List.replicate 100 false }

/-- A fresh OR gate after a successful `set_property("num_inputs", 3)`. -/
def orGate3 : NaryGate :=
  { orGate with num_inputs := 3, invert_inputs := [false, false, false] }

/-- `orPlacement` turned to face East. -/
def orPlacementEast : ComponentInfo NaryGate :=
  { orPlacement with orientation := Orientation.East }

/-- `orPlacement` with the wrapped gate grown to 3 inputs. -/
def orPlacement3 : ComponentInfo NaryGate :=
  { orPlacement with component := orGate3 }

/-- Metadata registry A uses for id `"x"` in the merge scenario. -/
def metaAx : ComponentMetadata :=
  { id := "x", name := "A gate", category := "Gates", description := "from A" }

/-- Metadata registry B uses for id `"x"` in the merge scenario. -/
def metaBx : ComponentMetadata :=
  { id := "x", name := "B gate", category := "Gates", description := "from B" }

/-- A one-entry registry mapping `"x"` to an AND gate. -/
def libA : Library NaryGate :=
  Library.add Library.new metaAx (fun _ => NaryGate.new NaryGateType.And)

/-- A one-entry registry mapping `"x"` to an XOR gate. -/
def libB : Library NaryGate :=
  Library.add Library.new metaBx (fun _ => NaryGate.new NaryGateType.Xor)

/-- Modelled from the spec, §4.3, as the comparator for C5: swap the extents
for East/West, then remap each pin's `(x,y)` with the spec's four formulas
over the possibly-swapped `(w,h)`, passing `image_ref`, pin `name` and pin
`bit_width` through unchanged. -/
def rotate_spec (shape : Shape) (o : Orientation) : Shape :=
  let wh : Int × Int :=
    match o with
    | Orientation.East | Orientation.West => (shape.height, shape.width)
    | Orientation.North | Orientation.South => (shape.width, shape.height)
  { width := wh.1, height := wh.2, image_name := shape.image_name,
    pins := shape.pins.map (fun pin =>
      let xy : Int × Int :=
        match o with
        | Orientation.North => (pin.x, pin.y)
        | Orientation.East => (wh.1 - pin.y, pin.x)
        | Orientation.South => (wh.1 - pin.x, wh.2 - pin.y)
        | Orientation.West => (pin.y, wh.2 - pin.x)
      { x := xy.1, y := xy.2, name := pin.name, bits := pin.bits }) }

/-! ### Helper lemmas -/

theorem pins_map_eq_self {l : List Pin} {f : Pin → Pin} (h : ∀ p, f p = p) :
    l.map f = l := by
  induction l with
  | nil => rfl
  | cons p t ih => simp only [List.map_cons, h p, ih]

/-- Every `Err` return of `NaryGate::set_property` happens before any field is
written: the returned state equals the input state. -/
theorem naryGate_set_error_eq {g g2 : NaryGate} {name : String} {value : Json}
    {e : PropertyError}
    (h : NaryGate.set_property g name value = Outcome.ok (g2, Except.error e)) :
    g2 = g := by
  unfold NaryGate.set_property at h
  repeat' split at h
  all_goals simp_all

/-- Same for the Placement wrapper over a gate. -/
theorem componentInfo_set_error_eq {info info2 : ComponentInfo NaryGate}
    {name : String} {value : Json} {e : PropertyError}
    (h : ComponentInfo.set_property info name value =
           Outcome.ok (info2, Except.error e)) :
    info2 = info := by
  unfold ComponentInfo.set_property at h
  repeat' split at h
  case _ =>
    simp_all
  case _ =>
    simp_all
  case _ =>
    exact absurd h (by simp)
  case _ c r heq =>
    injection h with h2
    injection h2 with h3 h4
    subst h4
    have hc : c = info.component := naryGate_set_error_eq heq
    subst hc
    exact h3.symm

/-! ### Claim theorems -/

/-- C1 (code bug, gates.rs line 129): on the placement of a fresh OR gate,
`set_property("num_bits", 5)` succeeds but the immediately following
`get_property("num_bits")` still returns 1, because the arm mutates
`num_inputs` instead of `num_bits` — the successful mutation is not
observable through the property it named. -/
theorem C1_num_bits_not_reflected :
    Library.create gatesLibrary "or_gate" = Except.ok orPlacement ∧
    ComponentInfo.set_property orPlacement "num_bits" (Json.num 5) =
      Outcome.ok (ComponentInfo.new orGateAfterBits orGateMetadata, Except.ok ()) ∧
    ComponentInfo.get_property (ComponentInfo.new orGateAfterBits orGateMetadata)
        "num_bits" = Outcome.ok (some (Json.num 1)) :=
  ⟨rfl, rfl, rfl⟩

/-- C2 (code bug): the fresh OR gate's schema declares `num_inputs` with
domain `Integer{min:2,max:32}`, yet `set_property("num_inputs", 100)`
succeeds — the `u32` decode never compares the value against the declared
bounds, so no `InvalidValue` error is produced. -/
theorem C2_bounds_not_checked :
    NaryGate.schema orGate "num_inputs" =
      some { read_only := false, type_ := FieldType.Integer 2 32,
             name := "Number of inputs", description := none } ∧
    NaryGate.set_property orGate "num_inputs" (Json.num 100) =
      Outcome.ok (orGateWide, Except.ok ()) :=
  ⟨rfl, rfl⟩

/-- C3 (code bug): after the `"num_bits"` slip leaves `num_inputs = 5` while
`invert_inputs` still holds 2 bits, `get_property("invert_input_3")` finds
index 3 in range of `num_inputs` and indexes the bit vector out of bounds —
a panic, not a returned result value. -/
theorem C3_get_property_panics :
    Library.create gatesLibrary "or_gate" = Except.ok orPlacement ∧
    ComponentInfo.set_property orPlacement "num_bits" (Json.num 5) =
      Outcome.ok (ComponentInfo.new orGateAfterBits orGateMetadata, Except.ok ()) ∧
    ComponentInfo.get_property (ComponentInfo.new orGateAfterBits orGateMetadata)
        "invert_input_3" = Outcome.panic :=
  ⟨rfl, rfl, rfl⟩

/-- C4: a `set_property` that returns a `PropertyError` leaves the instance's
observable state (schema, every `get_property`, `get_shape`) exactly as
before the call, both for the gate component and for the Placement wrapper. -/
theorem C4_set_property_error_atomic :
    (∀ (g g2 : NaryGate) (name : String) (value : Json) (e : PropertyError),
        NaryGate.set_property g name value = Outcome.ok (g2, Except.error e) →
        g2 = g ∧ (∀ k, NaryGate.schema g2 k = NaryGate.schema g k) ∧
          (∀ n, NaryGate.get_property g2 n = NaryGate.get_property g n) ∧
          NaryGate.get_shape g2 = NaryGate.get_shape g) ∧
    (∀ (info info2 : ComponentInfo NaryGate) (name : String) (value : Json)
        (e : PropertyError),
        ComponentInfo.set_property info name value =
          Outcome.ok (info2, Except.error e) →
        info2 = info ∧ (∀ k, info2.schema k = info.schema k) ∧
          (∀ n, info2.get_property n = info.get_property n) ∧
          info2.get_shape = info.get_shape) := by
  constructor
  · intro g g2 name value e h
    have hg : g2 = g := naryGate_set_error_eq h
    subst hg
    exact ⟨rfl, fun _ => rfl, fun _ => rfl, rfl⟩
  · intro info info2 name value e h
    have hi : info2 = info := componentInfo_set_error_eq h
    subst hi
    exact ⟨rfl, fun _ => rfl, fun _ => rfl, rfl⟩

/-- Witness for C4: the failing call `set_property("bogus", null)` on a fresh
OR gate errors and returns the state unchanged. -/
theorem C4_witness :
    orGate = orGate ∧
    (∀ n, NaryGate.get_property orGate n = NaryGate.get_property orGate n) :=
  ⟨(C4_set_property_error_atomic.1 orGate orGate "bogus" Json.null
      (PropertyError.unknown "bogus") rfl).1,
   (C4_set_property_error_atomic.1 orGate orGate "bogus" Json.null
      (PropertyError.unknown "bogus") rfl).2.2.1⟩

/-- C5: `Orientation::map_shape` computes exactly the spec's rotation
transform (extent swap for East/West, then the four pin formulas), and
`image_ref`, pin names and pin bit-widths pass through unchanged. -/
theorem C5_rotation_matches_spec (o : Orientation) (s : Shape) :
    o.map_shape s = rotate_spec s o ∧
    (o.map_shape s).image_name = s.image_name ∧
    (o.map_shape s).pins.map Pin.name = s.pins.map Pin.name ∧
    (o.map_shape s).pins.map Pin.bits = s.pins.map Pin.bits := by
  refine ⟨?_, ?_, ?_, ?_⟩
  · cases o <;> rfl
  · cases o <;> rfl
  · cases o <;> simp [Orientation.map_shape, List.map_map, Function.comp]
  · cases o <;> simp [Orientation.map_shape, List.map_map, Function.comp]

/-- C6: rotating North is the identity; East after West is the identity; four
quarter turns (the North→East→South→West→North cycle) are the identity. -/
theorem C6_rotation_cycle (s : Shape) :
    Orientation.North.map_shape s = s ∧
    Orientation.East.map_shape (Orientation.West.map_shape s) = s ∧
    Orientation.East.map_shape (Orientation.East.map_shape
      (Orientation.East.map_shape (Orientation.East.map_shape s))) = s := by
  refine ⟨?_, ?_, ?_⟩
  · cases s with
    | mk w h pins img =>
      simp only [Orientation.map_shape, Orientation.map_point]
      congr 1
      exact pins_map_eq_self (fun p => rfl)
  · cases s with
    | mk w h pins img =>
      simp only [Orientation.map_shape, Orientation.map_point, List.map_map]
      congr 1
      refine pins_map_eq_self (fun p => ?_)
      cases p
      simp [Function.comp]
  · cases s with
    | mk w h pins img =>
      simp only [Orientation.map_shape, Orientation.map_point, List.map_map]
      congr 1
      refine pins_map_eq_self (fun p => ?_)
      cases p
      simp [Function.comp]

/-- C7: a Placement's schema is the wrapped gate's schema plus the synthetic
`"orientation"` entry (not read-only, four-value enum, display name
"Orientation"), and every key of the wrapped schema stays present. -/
theorem C7_placement_schema (info : ComponentInfo NaryGate) :
    info.schema "orientation" =
      some { read_only := false,
             type_ := FieldType.Enum ["North", "East", "South", "West"],
             name := "Orientation", description := none } ∧
    (∀ k, k ≠ "orientation" → info.schema k = NaryGate.schema info.component k) ∧
    (∀ k, (NaryGate.schema info.component k).isSome → (info.schema k).isSome) := by
  refine ⟨rfl, ?_, ?_⟩
  · intro k hk
    simp only [ComponentInfo.schema, if_neg hk]
    rfl
  · intro k hk
    by_cases h : k = "orientation"
    · subst h
      simp [ComponentInfo.schema]
    · simpa [ComponentInfo.schema, h] using hk

/-- Witness for C7: on the placement of a fresh OR gate, the delegated key
`"num_inputs"` resolves to the gate's own descriptor. -/
theorem C7_witness :
    orPlacement.schema "num_inputs" = NaryGate.schema orGate "num_inputs" :=
  (C7_placement_schema orPlacement).2.1 "num_inputs" (by decide)

/-- C8: `Library::create` fails with `MissingComponentError` carrying the
looked-up id on a miss, and on a hit runs the entry's factory and wraps the
fresh component at position (0,0), facing North, with the entry's metadata. -/
theorem C8_create (σ : Type) (lib : Library σ) (id : String) :
    (lib.components id = none → lib.create id = Except.error { id := id }) ∧
    (∀ e, lib.components id = some e →
        lib.create id =
          Except.ok { component := e.factory (), orientation := Orientation.North,
                      x := 0, y := 0, metadata := e.metadata }) := by
  constructor
  · intro h
    simp [Library.create, h]
  · intro e h
    simp [Library.create, h, ComponentInfo.new]

/-- Witness for C8: the gates library misses `"missing_id"` and hits
`"or_gate"`. -/
theorem C8_witness :
    gatesLibrary.create "missing_id" = Except.error { id := "missing_id" } ∧
    gatesLibrary.create "or_gate" =
      Except.ok { component := NaryGate.new NaryGateType.Or,
                  orientation := Orientation.North, x := 0, y := 0,
                  metadata := orGateMetadata } :=
  ⟨(C8_create NaryGate gatesLibrary "missing_id").1 rfl,
   (C8_create NaryGate gatesLibrary "or_gate").2
     { metadata := orGateMetadata, factory := fun _ => NaryGate.new NaryGateType.Or }
     rfl⟩

/-- C9: after `A.extend(B)`, an id registered by both maps to B's entry, and
every entry of B whose id is absent from A is added. -/
theorem C9_extend (σ : Type) (A B : Library σ) :
    (∀ id eA eB, A.components id = some eA → B.components id = some eB →
        (A.extend B).components id = some eB) ∧
    (∀ id eB, A.components id = none → B.components id = some eB →
        (A.extend B).components id = some eB) := by
  constructor
  · intro id eA eB hA hB
    simp [Library.extend, hB]
  · intro id eB hA hB
    simp [Library.extend, hB]

/-- Witness for C9: two concrete one-entry registries that both register
`"x"`; after the merge the stored entry is B's. -/
theorem C9_witness :
    (libA.extend libB).components "x" =
      some { metadata := metaBx, factory := fun _ => NaryGate.new NaryGateType.Xor } :=
  (C9_extend NaryGate libA libB).1 "x"
    { metadata := metaAx, factory := fun _ => NaryGate.new NaryGateType.And }
    { metadata := metaBx, factory := fun _ => NaryGate.new NaryGateType.Xor }
    rfl rfl

/-- C10: frame property of the Placement wrapper: a successful orientation
write touches nothing but the orientation field, and a delegated write
touches nothing but the wrapped component. -/
theorem C10_placement_frame (σ : Type) [Component σ] :
    (∀ (info info2 : ComponentInfo σ) (value : Json),
        ComponentInfo.set_property info "orientation" value =
          Outcome.ok (info2, Except.ok ()) →
        info2.component = info.component ∧ info2.x = info.x ∧ info2.y = info.y ∧
          info2.metadata = info.metadata ∧
          (∀ k, Component.schema info2.component k = Component.schema info.component k) ∧
          (∀ n, Component.get_property info2.component n =
                  Component.get_property info.component n) ∧
          Component.get_shape info2.component = Component.get_shape info.component) ∧
    (∀ (info info2 : ComponentInfo σ) (name : String) (value : Json)
        (r : Except PropertyError Unit),
        name ≠ "orientation" →
        ComponentInfo.set_property info name value = Outcome.ok (info2, r) →
        info2.orientation = info.orientation ∧ info2.x = info.x ∧
          info2.y = info.y ∧ info2.metadata = info.metadata) := by
  constructor
  · intro info info2 value h
    unfold ComponentInfo.set_property at h
    rw [if_pos rfl] at h
    split at h
    · exact absurd h (by simp)
    · injection h with h2
      injection h2 with h3 h4
      subst h3
      exact ⟨rfl, rfl, rfl, rfl, fun _ => rfl, fun _ => rfl, rfl⟩
  · intro info info2 name value r hn h
    unfold ComponentInfo.set_property at h
    rw [if_neg hn] at h
    split at h
    · exact absurd h (by simp)
    · rename_i c r2 heq
      injection h with h2
      injection h2 with h3 h4
      subst h3
      exact ⟨rfl, rfl, rfl, rfl⟩

/-- Witness for C10: setting orientation East on a fresh OR-gate placement
keeps the wrapped gate; setting `"num_inputs"` keeps the orientation. -/
theorem C10_witness :
    orPlacementEast.component = orPlacement.component ∧
    orPlacement3.orientation = orPlacement.orientation :=
  ⟨((C10_placement_frame NaryGate).1 orPlacement orPlacementEast
      (Json.str "East") rfl).1,
   ((C10_placement_frame NaryGate).2 orPlacement orPlacement3
      "num_inputs" (Json.num 3) (Except.ok ()) (by decide) rfl).1⟩

end Tenorite
